import Mathlib

/-!
Shallow embedding of the presentation core of the vulkan-engine repository
(src/renderer/presentation.rs, src/renderer/device.rs, src/app.rs), together
with theorems settling the specification claims about it.

Machine integers (u32, u64) are modelled as Nat; Vulkan handles (semaphores,
fences, swapchains) are modelled as Nat with 0 standing for the null handle.
Fallible Vulkan calls are modelled as `Except VkResult` values supplied by an
environment record, one field per call site, so that each modelled function is
a pure state transformer faithful to the Rust control flow.
-/

namespace VulkanEngine

/-- The subset of ash::vk::Result values the modelled code mentions. -/
inductive VkResult where
  | SUCCESS
  | INCOMPLETE
  | SUBOPTIMAL_KHR
  | ERROR_OUT_OF_DATE_KHR
  | ERROR_DEVICE_LOST
  | ERROR_SURFACE_LOST_KHR
  | ERROR_OUT_OF_HOST_MEMORY
  deriving DecidableEq, Repr

/-- vk::Extent2D, both fields u32. -/
structure Extent2D where
  width : Nat
  height : Nat
  deriving DecidableEq, Repr

/-- u32::MAX, the sentinel value used by surface capabilities. -/
def u32_MAX : Nat := 4294967295

/-- Rust u32::clamp(self, min, max): if self < min then min, else if
self > max then max, else self (the min > max panic case is not modelled;
no call site reaches it with min > max). -/
def rust_clamp (x lo hi : Nat) : Nat :=
  if x < lo then lo else if x > hi then hi else x

/-- The present modes the modelled code mentions (vk::PresentModeKHR). -/
inductive PresentModeKHR where
  | MAILBOX
  | FIFO
  | FIFO_RELAXED
  | IMMEDIATE
  deriving DecidableEq, Repr

/-- The surface formats the modelled code mentions (vk::Format). -/
inductive Format where
  | B8G8R8A8_SRGB
  | B8G8R8A8_UNORM
  | R8G8B8A8_SRGB
  deriving DecidableEq, Repr

/-- vk::SurfaceFormatKHR; the colour space is opaque to the modelled code
except as a payload, kept as a Nat code. -/
structure SurfaceFormatKHR where
  format : Format
  color_space : Nat
  deriving DecidableEq, Repr

/-- The fields of vk::SurfaceCapabilitiesKHR read by the modelled code. -/
structure SurfaceCapabilitiesKHR where
  min_image_count : Nat
  max_image_count : Nat
  current_extent : Extent2D
  min_image_extent : Extent2D
  max_image_extent : Extent2D
  deriving DecidableEq, Repr

/-- VKSwapchainCapabilities (presentation.rs:65-69): snapshot of the surface
capabilities, formats and present modes queried for one physical device. -/
structure VKSwapchainCapabilities where
  surface_capibilities : SurfaceCapabilitiesKHR
  surface_formats : List SurfaceFormatKHR
  present_modes : List PresentModeKHR
  deriving DecidableEq, Repr

/-- VKSwapchainCapabilities::ideal_n_images (presentation.rs:117-133):
starts from min_image_count; if min_image_count <= 3, upgrades to 3 when
max_image_count >= 3 or max_image_count == 0, else to 2 when
max_image_count >= 2 or max_image_count == 0. -/
def VKSwapchainCapabilities.ideal_n_images (c : VKSwapchainCapabilities) : Nat :=
  let image_count := c.surface_capibilities.min_image_count
  if c.surface_capibilities.min_image_count ≤ 3 then
    if 3 ≤ c.surface_capibilities.max_image_count
        ∨ c.surface_capibilities.max_image_count = 0 then
      3
    else if 2 ≤ c.surface_capibilities.max_image_count
        ∨ c.surface_capibilities.max_image_count = 0 then
      2
    else
      image_count
  else
    image_count

/-- VKSwapchainCapabilities::get_extent (presentation.rs:135-157). The
&Window argument is modelled by the value of window.inner_size(). If
current_extent.width != u32::MAX the reported current extent is returned;
otherwise the window inner size is clamped per axis into
[min_image_extent, max_image_extent]. -/
def VKSwapchainCapabilities.get_extent (c : VKSwapchainCapabilities)
    (window_inner_size : Extent2D) : Extent2D :=
  if c.surface_capibilities.current_extent.width ≠ u32_MAX then
    c.surface_capibilities.current_extent
  else
    let max_extent := c.surface_capibilities.max_image_extent
    let min_extent := c.surface_capibilities.min_image_extent
    { width := rust_clamp window_inner_size.width min_extent.width max_extent.width,
      height := rust_clamp window_inner_size.height min_extent.height max_extent.height }

/-! ## Device selection model (src/renderer/device.rs) -/

/-- vk::QueueFlags bit values (bitmask modelled as Nat). -/
def QueueFlags.GRAPHICS : Nat := 1
def QueueFlags.COMPUTE : Nat := 2
def QueueFlags.TRANSFER : Nat := 4

/-- queue_flags.contains(required): all required bits are set. -/
def queue_flags_contains (flags required : Nat) : Bool :=
  flags &&& required = required

/-- vk::PhysicalDeviceType values the modelled code matches on. -/
inductive PhysicalDeviceType where
  | DISCRETE_GPU
  | INTEGRATED_GPU
  | VIRTUAL_GPU
  | CPU
  | OTHER
  deriving DecidableEq, Repr

/-- One entry of vk::PhysicalDeviceMemoryProperties::memory_heaps: a size in
bytes and whether vk::MemoryHeapFlags::DEVICE_LOCAL is set. -/
structure MemoryHeap where
  size : Nat
  device_local : Bool
  deriving DecidableEq, Repr

/-- A physical adapter together with the results of the instance-level
queries that the device-selection code performs on it
(enumerate_device_extension_properties, get_physical_device_properties,
get_physical_device_features, get_physical_device_queue_family_properties,
get_physical_device_memory_properties). -/
structure PhysicalDevice where
  extensions : List String
  name : String
  device_type : PhysicalDeviceType
  queue_family_flags : List Nat
  geometry_shader : Bool
  shader_float64 : Bool
  memory_heaps : List MemoryHeap
  deriving DecidableEq, Repr

/-- physical_device_memory_size (device.rs:391-408): sum of the device-local
heap sizes, each converted from bytes to MiB. -/
def physical_device_memory_size (pd : PhysicalDevice) : Nat :=
  pd.memory_heaps.foldl
    (fun acc heap =>
      if heap.device_local then acc + heap.size / (1024 * 1024) else acc)
    0

/-- VKSurface as seen by the device-selection code: the results of
queue_supports_surface per (device, queue index), and of
VKSwapchainCapabilities::new per device (used by the second registered
requirement predicate). -/
structure VKSurface where
  queue_supports_surface : PhysicalDevice → Nat → Except VkResult Bool
  swap_capabilities : PhysicalDevice → VKSwapchainCapabilities

/-- ReqFn (device.rs:198): a registered requirement predicate. The &Instance
argument is dropped because every instance-level query result is carried by
the PhysicalDevice model. -/
def ReqFn : Type := PhysicalDevice → Option VKSurface → Bool

/-- VKDeviceRequirments (device.rs:207-212). device_extended_info holds
opaque device-creation extension structs; only their number is modelled. -/
structure VKDeviceRequirments where
  required_extentions : List String
  device_extended_info : Nat
  requirement_functions : List ReqFn
  required_queue_flags : Nat

/-- The queue-family loop of device_compat (device.rs:285-300):
Iterator::any over the enumerated queue families. For each family, suported
starts as queue_flags.contains(required_queue_flags) and, when a surface
requirement is present, is OR-ed (the source writes suported |= ...) with
queue_supports_surface(..).unwrap_or(false). Each supported family writes
its index into checked_queue before the any short-circuits at the first
supported family. Returns (queue_passes, final checked_queue value). -/
def device_compat_queue_loop (req : VKDeviceRequirments) (pd : PhysicalDevice)
    (surface_requirment : Option VKSurface) :
    List Nat → Nat → Nat → Bool × Nat
  | [], _, checked_queue => (false, checked_queue)
  | flags :: rest, i, checked_queue =>
    let suported := queue_flags_contains flags req.required_queue_flags
    let suported :=
      match surface_requirment with
      | some surface_req =>
        suported || (((surface_req.queue_supports_surface pd i).toOption).getD false)
      | none => suported
    if suported then
      (true, i)
    else
      device_compat_queue_loop req pd surface_requirment rest (i + 1) checked_queue

/-- VKDeviceRequirments::device_compat (device.rs:253-303). Returns the Bool
result of the source function paired with the value left in the
checked_queue out-parameter (the source threads Option<&mut u32>; pick_device
always passes Some, so the thread is modelled unconditionally). -/
def VKDeviceRequirments.device_compat (req : VKDeviceRequirments)
    (pd : PhysicalDevice) (surface_requirment : Option VKSurface)
    (checked_queue : Nat) : Bool × Nat :=
  let device_extentions := pd.extensions
  let has_extentions :=
    req.required_extentions.all (fun ext => device_extentions.contains ext)
  let funcs_passes :=
    req.requirement_functions.any (fun func => func pd surface_requirment)
  let queue_scan :=
    device_compat_queue_loop req pd surface_requirment
      pd.queue_family_flags 0 checked_queue
  (has_extentions && funcs_passes && queue_scan.1, queue_scan.2)

/-- ash::ext::mesh_shader::NAME. -/
def mesh_shader_NAME : String := "VK_EXT_mesh_shader"

/-- score_physical_device (device.rs:330-388): +100 discrete / +50
integrated, +10 mesh-shader extension, +10 compute-capable queue family,
+10 geometry shader, +5 shader_float64, plus device-local memory in GiB
capped at 64. -/
def score_physical_device (pd : PhysicalDevice) : Nat :=
  let score : Nat := 0
  let score := score +
    (match pd.device_type with
     | PhysicalDeviceType.DISCRETE_GPU => 100
     | PhysicalDeviceType.INTEGRATED_GPU => 50
     | _ => 0)
  let mesh_shading := pd.extensions.contains mesh_shader_NAME
  let score := score + (if mesh_shading then 10 else 0)
  let compute_queue :=
    pd.queue_family_flags.any
      (fun flags => queue_flags_contains flags QueueFlags.COMPUTE)
  let score := score + (if compute_queue then 10 else 0)
  let score := score + (if pd.geometry_shader then 10 else 0)
  let score := score + (if pd.shader_float64 then 5 else 0)
  score + min (physical_device_memory_size pd / 1024) 64

/-- The adapters passing device_compat in enumeration order, each paired with
the queue index captured from the shared checked_queue variable — the
filter_map of pick_device (device.rs:156-168), with the single mutable
queue_index threaded through every call exactly as in the source. -/
def eligible_devices (dev_requirments : VKDeviceRequirments)
    (vulkan_surface : VKSurface) (physical_devices : List PhysicalDevice) :
    List (PhysicalDevice × Nat) :=
  (physical_devices.foldl
    (fun acc pd =>
      let compat :=
        dev_requirments.device_compat pd (some vulkan_surface) acc.2
      (if compat.1 then acc.1 ++ [(pd, compat.2)] else acc.1, compat.2))
    ([], 0)).1

/-- VKDevice::pick_device (device.rs:143-186): filter by device_compat, score
the survivors, stably sort by score and take the last element. Rust's
sort_by_key is a stable sort; a stable sort by key is uniquely determined, so
Mathlib's insertionSort on the score component is an exact model. -/
def pick_device (score_function : PhysicalDevice → Nat)
    (dev_requirments : VKDeviceRequirments) (vulkan_surface : VKSurface)
    (physical_devices : List PhysicalDevice) :
    Option (PhysicalDevice × Nat) :=
  let passing := eligible_devices dev_requirments vulkan_surface physical_devices
  let scored : List (Nat × PhysicalDevice × Nat) :=
    passing.map (fun p => (score_function p.1, p))
  let sorted := scored.insertionSort (fun a b => a.1 ≤ b.1)
  sorted.getLast?.map (fun best => best.2)

/-- Rust str::starts_with(pat), modelled as a prefix test on the character
sequence of the string. -/
def string_starts_with (s pat : String) : Bool :=
  pat.data.isPrefixOf s.data

/-- The first requirement predicate registered in VKDevice::new
(device.rs:35-44): reject adapters whose reported name starts with
"llvmpipe". -/
def llvmpipe_predicate : ReqFn :=
  fun pd _ => !(string_starts_with pd.name "llvmpipe")

/-- The second requirement predicate registered in VKDevice::new
(device.rs:45-55): when a surface is supplied, require a nonzero
min_image_count or a nonempty present-mode list. -/
def surface_caps_predicate : ReqFn :=
  fun pd surf =>
    match surf with
    | some vk_surface =>
      decide ((vk_surface.swap_capabilities pd).surface_capibilities.min_image_count > 0)
        || !((vk_surface.swap_capabilities pd).present_modes.isEmpty)
    | none => true

/-- The requirement set built in VKDevice::new (device.rs:24-55): graphics
queue flag, the three required extensions, two pushed feature-info structs
and the two predicates above. -/
def base_requirments : VKDeviceRequirments :=
  { required_extentions :=
      ["VK_KHR_swapchain", "VK_KHR_dynamic_rendering", "VK_KHR_synchronization2"],
    device_extended_info := 2,
    requirement_functions := [llvmpipe_predicate, surface_caps_predicate],
    required_queue_flags := QueueFlags.GRAPHICS }

/-- Specification-side chooser for pick_device, written from the spec words
"higher wins; ties broken by enumeration order — last highest-scored wins":
the element of maximal key, preferring the later one on equal keys. -/
def last_max_by {α : Type} (key : α → Nat) : List α → Option α
  | [] => none
  | x :: xs =>
    match last_max_by key xs with
    | none => some x
    | some b => some (if key x ≤ key b then b else x)

/-! ## Swapchain model (src/renderer/presentation.rs:160-306) -/

/-- VKSwapchain (presentation.rs:160-168); handles are Nats, the loader
function table is not part of the state. -/
structure VKSwapchain where
  swapchain : Nat
  image_views : List Nat
  images : List Nat
  image_extent : Extent2D
  capibilities : VKSwapchainCapabilities
  deriving DecidableEq, Repr

/-- Observable swapchain lifecycle events, used to record the order of the
build and destroy operations performed by rebuild_swapchain. -/
inductive SwapEvent where
  | built (new_handle : Nat) (old_swapchain_hint : Option Nat)
  | destroyed (handle : Nat)
  deriving DecidableEq, Repr

/-- Environment for rebuild_swapchain: the outcome of the queue_wait_idle
call, and the outcome of VKSwapchain::new as a function of the old-swapchain
hint passed to it. -/
structure RebuildEnv where
  queue_wait_idle : Except VkResult Unit
  build_new : Option Nat → Except VkResult VKSwapchain

/-- VKSwapchain::rebuild_swapchain (presentation.rs:275-305): wait for the
graphics queue to idle, attempt VKSwapchain::new passing Some(old handle),
and only on success replace_with the new value, destroying the old one
inside the replacement closure. Returns the Result, the resulting state and
the trace of build/destroy events in the order they happen. -/
def VKSwapchain.rebuild_swapchain (env : RebuildEnv) (s : VKSwapchain) :
    Except VkResult Unit × VKSwapchain × List SwapEvent :=
  match env.queue_wait_idle with
  | Except.error e => (Except.error e, s, [])
  | Except.ok _ =>
    let old_swapchain := s.swapchain
    match env.build_new (some old_swapchain) with
    | Except.ok new_swap =>
      (Except.ok (),
       new_swap,
       [SwapEvent.built new_swap.swapchain (some old_swapchain),
        SwapEvent.destroyed old_swapchain])
    | Except.error err =>
      (Except.error err, s, [])

/-! ## Presenter model (src/renderer/presentation.rs:317-563) -/

/-- VKPresent (presentation.rs:317-328). Semaphore and fence handles are
Nats; 0 is the null handle (vk::Fence::null()). -/
structure VKPresent where
  frame : Nat
  max_frames : Nat
  img_aquired_gpu : List Nat
  img_rendered_gpu : List Nat
  img_rendered_cpu : List Nat
  img_aquired_index : Nat
  img_in_flight : List Nat
  swap_invalid : Bool
  deriving DecidableEq, Repr

/-- The #[derive(Default)] value of VKPresent: zero frame counters, empty
synchronization vectors, flag clear. -/
def VKPresent.default_value : VKPresent :=
  { frame := 0, max_frames := 0, img_aquired_gpu := [], img_rendered_gpu := [],
    img_rendered_cpu := [], img_aquired_index := 0, img_in_flight := [],
    swap_invalid := false }

/-- ToRenderInfo (presentation.rs:330-336). -/
structure ToRenderInfo where
  frame_in_flight : Nat
  img_aquired_gpu : Nat
  img_aquired_index : Nat
  done_rendering_cpu : Nat
  done_rendering_gpu : Nat
  deriving DecidableEq, Repr

/-- Environment for aquire_img: the outcomes of its four fallible Vulkan
calls in source order. acquire_next_image returns Ok((image index,
suboptimal flag)) on the success path and Err on the error path, exactly as
ash exposes vkAcquireNextImageKHR. -/
structure AquireEnv where
  wait_rendered_fence : Except VkResult Unit
  acquire_next_image : Except VkResult (Nat × Bool)
  wait_in_flight_fence : Except VkResult Unit
  reset_rendered_fence : Except VkResult Unit

/-- VKPresent::aquire_img (presentation.rs:361-446), as a pure state
transformer over (environment, presenter state): look up the three per-frame
primitives (Err(INCOMPLETE) when absent), wait on the frame's CPU fence,
call acquire_next_image (the ? propagates its error), set swap_invalid on a
suboptimal report, record the acquired index, wait on a non-null in-flight
fence for that image, grow the in-flight table, associate the frame's fence
with the image, reset the fence, and return the ToRenderInfo. -/
def VKPresent.aquire_img (env : AquireEnv) (s : VKPresent) :
    Except VkResult ToRenderInfo × VKPresent :=
  match s.img_rendered_cpu.get? s.frame with
  | none => (Except.error VkResult.INCOMPLETE, s)
  | some img_rendered_cpu =>
  match s.img_rendered_gpu.get? s.frame with
  | none => (Except.error VkResult.INCOMPLETE, s)
  | some img_rendered_gpu =>
  match s.img_aquired_gpu.get? s.frame with
  | none => (Except.error VkResult.INCOMPLETE, s)
  | some img_aquired_gpu =>
  match env.wait_rendered_fence with
  | Except.error e => (Except.error e, s)
  | Except.ok _ =>
  match env.acquire_next_image with
  | Except.error e => (Except.error e, s)
  | Except.ok (img_index, img_suboptimal) =>
    let s := if img_suboptimal then { s with swap_invalid := true } else s
    let s := { s with img_aquired_index := img_index }
    let in_flight_wait : Except VkResult Unit :=
      match s.img_in_flight.get? img_index with
      | some img_in_flight =>
        if img_in_flight ≠ 0 then env.wait_in_flight_fence else Except.ok ()
      | none => Except.ok ()
    match in_flight_wait with
    | Except.error e => (Except.error e, s)
    | Except.ok _ =>
      let s :=
        if s.img_in_flight.length ≤ img_index then
          { s with img_in_flight :=
              s.img_in_flight ++
                List.replicate (img_index + 1 - s.img_in_flight.length) 0 }
        else s
      let s := { s with img_in_flight := s.img_in_flight.set img_index img_rendered_cpu }
      match env.reset_rendered_fence with
      | Except.error e => (Except.error e, s)
      | Except.ok _ =>
        (Except.ok
          { frame_in_flight := s.frame,
            img_aquired_gpu := img_aquired_gpu,
            img_aquired_index := img_index,
            done_rendering_cpu := img_rendered_cpu,
            done_rendering_gpu := img_rendered_gpu },
         s)

/-- Environment for present_frame: the outcome of queue_present (Ok carries
the suboptimal Bool that the source discards with ?;) and the outcome of the
rebuild_swapchain call made when swap_invalid is set. -/
structure PresentEnv where
  queue_present : Except VkResult Bool
  rebuild_result : Except VkResult Unit

/-- VKPresent::present_frame (presentation.rs:452-490): look up the frame's
render-finished semaphore (Err(INCOMPLETE) when absent), call queue_present
(? propagates its error and discards its Ok payload), advance
frame := (frame + 1) % max_frames, and if swap_invalid attempt exactly one
swapchain rebuild, clearing the flag only when the rebuild reports Ok.
Returns the Result, the new presenter state and the number of rebuild
attempts made during the call. -/
def VKPresent.present_frame (env : PresentEnv) (s : VKPresent) :
    Except VkResult Unit × VKPresent × Nat :=
  match s.img_rendered_gpu.get? s.frame with
  | none => (Except.error VkResult.INCOMPLETE, s, 0)
  | some _semaphore =>
    match env.queue_present with
    | Except.error e => (Except.error e, s, 0)
    | Except.ok _suboptimal =>
      let s := { s with frame := (s.frame + 1) % s.max_frames }
      if s.swap_invalid then
        match env.rebuild_result with
        | Except.ok _ => (Except.ok (), { s with swap_invalid := false }, 1)
        | Except.error _ => (Except.ok (), s, 1)
      else
        (Except.ok (), s, 0)

/-- VKPresent::invalidate_swap (presentation.rs:521-523). -/
def VKPresent.invalidate_swap (s : VKPresent) : VKPresent :=
  { s with swap_invalid := true }

/-- VKPresent::is_swap_invalid (presentation.rs:526-528). -/
def VKPresent.is_swap_invalid (s : VKPresent) : Bool :=
  s.swap_invalid

/-! ## Application event handling model (src/app.rs:85-109) -/

/-- The part of AppCTX that the window_event handler can observe or change:
its VKPresent value (window, Vulkan context and command buffers are external
handles). -/
structure AppCTX where
  vulkan_present : VKPresent
  deriving DecidableEq, Repr

/-- App (app.rs:73-76): the two-state lifecycle of the application. -/
inductive App where
  | Initialised (app_ctx : AppCTX)
  | Uninitialised
  deriving DecidableEq, Repr

/-- The WindowEvent::Resized(size) arm of App::window_event (app.rs:95-100):
the source matches on App::Initialised and then does nothing — the arm body
is empty apart from a comment. -/
def App.window_event_resized (app : App) (_size : Extent2D) : App :=
  match app with
  | App.Initialised app_ctx =>
    let _ := app_ctx
    App.Initialised app_ctx
  | App.Uninitialised => app

/-! ## Concrete values used by witnesses and counterexamples -/

/-- A capability snapshot with min_image_count = 1 and max_image_count = 1. -/
def caps_min1_max1 : VKSwapchainCapabilities :=
  { surface_capibilities :=
      { min_image_count := 1, max_image_count := 1,
        current_extent := { width := 640, height := 480 },
        min_image_extent := { width := 1, height := 1 },
        max_image_extent := { width := 4096, height := 4096 } },
    surface_formats := [{ format := Format.B8G8R8A8_SRGB, color_space := 0 }],
    present_modes := [PresentModeKHR.FIFO] }

/-- A capability snapshot whose current extent carries the u32::MAX sentinel. -/
def caps_sentinel : VKSwapchainCapabilities :=
  { surface_capibilities :=
      { min_image_count := 2, max_image_count := 0,
        current_extent := { width := u32_MAX, height := u32_MAX },
        min_image_extent := { width := 100, height := 100 },
        max_image_extent := { width := 200, height := 200 } },
    surface_formats := [{ format := Format.B8G8R8A8_SRGB, color_space := 0 }],
    present_modes := [PresentModeKHR.FIFO] }

/-- A presenter state with two frames in flight and all per-frame
synchronization vectors populated (handles 1..6), as established by
max_frames(2). -/
def present_ready : VKPresent :=
  { frame := 0, max_frames := 2, img_aquired_gpu := [1, 2],
    img_rendered_gpu := [3, 4], img_rendered_cpu := [5, 6],
    img_aquired_index := 0, img_in_flight := [], swap_invalid := false }

/-! ## C8 -/

/-- C8: ideal_n_images returns 3 when 3 lies within the image-count bounds
(max_image_count = 0 meaning no upper bound), else 2 when 2 lies within
bounds, else min_image_count; in particular it returns the minimum whenever
max_image_count is nonzero and below 2. Stated for capability snapshots
satisfying the Vulkan guarantee min_image_count ≤ max_image_count unless
max_image_count = 0. -/
theorem ideal_n_images_spec (c : VKSwapchainCapabilities)
    (hv : c.surface_capibilities.max_image_count = 0 ∨
      c.surface_capibilities.min_image_count ≤ c.surface_capibilities.max_image_count) :
    (c.ideal_n_images =
      if c.surface_capibilities.min_image_count ≤ 3 ∧
          (c.surface_capibilities.max_image_count = 0 ∨
            3 ≤ c.surface_capibilities.max_image_count) then 3
      else if c.surface_capibilities.min_image_count ≤ 2 ∧
          (c.surface_capibilities.max_image_count = 0 ∨
            2 ≤ c.surface_capibilities.max_image_count) then 2
      else c.surface_capibilities.min_image_count)
    ∧ (c.surface_capibilities.max_image_count ≠ 0 →
        c.surface_capibilities.max_image_count < 2 →
        c.ideal_n_images = c.surface_capibilities.min_image_count) := by
  simp only [VKSwapchainCapabilities.ideal_n_images]
  constructor
  · split_ifs <;> omega
  · intro h1 h2
    split_ifs <;> omega

/-- C8 witness: the hypothesis and both conclusions hold at a concrete
snapshot with min_image_count = 1 and max_image_count = 1 (nonzero and below
2), where the source function returns the minimum. -/
theorem ideal_n_images_spec_witness :
    (caps_min1_max1.surface_capibilities.max_image_count = 0 ∨
      caps_min1_max1.surface_capibilities.min_image_count ≤
        caps_min1_max1.surface_capibilities.max_image_count)
    ∧ caps_min1_max1.ideal_n_images =
        caps_min1_max1.surface_capibilities.min_image_count :=
  ⟨Or.inr (by decide),
   (ideal_n_images_spec caps_min1_max1 (Or.inr (by decide))).2
     (by decide) (by decide)⟩

/-! ## C5 -/

/-- C5 counterexample: at a concrete snapshot whose current_extent carries
the u32::MAX sentinel, get_extent does not return the reported current
extent; it returns the window size clamped into [min, max]. The claim has
the sentinel branch inverted. -/
theorem get_extent_sentinel_counterexample :
    caps_sentinel.surface_capibilities.current_extent.width = u32_MAX ∧
    caps_sentinel.get_extent { width := 150, height := 150 } =
      { width := 150, height := 150 } ∧
    caps_sentinel.get_extent { width := 150, height := 150 } ≠
      caps_sentinel.surface_capibilities.current_extent := by
  refine ⟨rfl, rfl, ?_⟩
  decide

/-- C5 amended: get_extent returns the reported current extent unmodified
when current_extent.width is NOT the sentinel, regardless of the requested
window size; when current_extent.width equals the sentinel it clamps the
caller-provided window size into [min_image_extent, max_image_extent]
independently per axis. -/
theorem get_extent_spec (c : VKSwapchainCapabilities) (w : Extent2D)
    (hw : c.surface_capibilities.min_image_extent.width ≤
      c.surface_capibilities.max_image_extent.width)
    (hh : c.surface_capibilities.min_image_extent.height ≤
      c.surface_capibilities.max_image_extent.height) :
    (c.surface_capibilities.current_extent.width ≠ u32_MAX →
      c.get_extent w = c.surface_capibilities.current_extent) ∧
    (c.surface_capibilities.current_extent.width = u32_MAX →
      c.get_extent w =
        { width := Nat.max c.surface_capibilities.min_image_extent.width
            (Nat.min w.width c.surface_capibilities.max_image_extent.width),
          height := Nat.max c.surface_capibilities.min_image_extent.height
            (Nat.min w.height c.surface_capibilities.max_image_extent.height) }) := by
  constructor
  · intro h
    simp only [VKSwapchainCapabilities.get_extent]
    rw [if_pos h]
  · intro h
    simp only [VKSwapchainCapabilities.get_extent, rust_clamp]
    rw [if_neg (by simp [h])]
    simp only [Extent2D.mk.injEq]
    constructor <;> (simp only [Nat.max_def, Nat.min_def]; split_ifs <;> omega)

/-- C5 witness: both branches of the amended statement evaluated, at the
sentinel snapshot (clamping side) and at a snapshot reporting a fixed
extent. -/
theorem get_extent_spec_witness :
    (caps_sentinel.surface_capibilities.min_image_extent.width ≤
        caps_sentinel.surface_capibilities.max_image_extent.width) ∧
    (caps_sentinel.surface_capibilities.current_extent.width = u32_MAX) ∧
    caps_sentinel.get_extent { width := 5000, height := 50 } =
      { width := Nat.max 100 (Nat.min 5000 200),
        height := Nat.max 100 (Nat.min 50 200) } ∧
    (caps_min1_max1.surface_capibilities.current_extent.width ≠ u32_MAX) ∧
    caps_min1_max1.get_extent { width := 5000, height := 50 } =
      caps_min1_max1.surface_capibilities.current_extent :=
  ⟨by decide, by decide,
   (get_extent_spec caps_sentinel { width := 5000, height := 50 }
      (by decide) (by decide)).2 (by decide),
   by decide,
   (get_extent_spec caps_min1_max1 { width := 5000, height := 50 }
      (by decide) (by decide)).1 (by decide)⟩

/-! ## C2 -/

/-- C2: the WindowEvent::Resized arm of App::window_event leaves the
application state completely unchanged — in particular it never sets the
presenter's swap-invalid flag — even though VKPresent.invalidate_swap (which
the specification requires the resize notification to call, and which no
code in the repository ever calls) would set that flag. -/
theorem window_event_resized_no_invalidate :
    (∀ (app : App) (size : Extent2D), App.window_event_resized app size = app) ∧
    (∀ s : VKPresent, (s.invalidate_swap).is_swap_invalid = true) ∧
    (App.window_event_resized
        (App.Initialised { vulkan_present := present_ready }) { width := 800, height := 600 } =
      App.Initialised { vulkan_present := present_ready }) ∧
    present_ready.is_swap_invalid = false := by
  refine ⟨?_, fun s => rfl, rfl, rfl⟩
  intro app size
  cases app <;> rfl

/-! ## C10 -/

/-- C10: when the per-frame synchronization vectors have no entry at the
current frame index, aquire_img and present_frame return
Err(vk::Result::INCOMPLETE) and leave the presenter state unchanged,
whatever the environment does. -/
theorem presenter_incomplete_on_missing_sync (env : AquireEnv)
    (envP : PresentEnv) (s : VKPresent)
    (hc : s.img_rendered_cpu.get? s.frame = none)
    (hg : s.img_rendered_gpu.get? s.frame = none) :
    s.aquire_img env = (Except.error VkResult.INCOMPLETE, s) ∧
    s.present_frame envP = (Except.error VkResult.INCOMPLETE, s, 0) := by
  constructor
  · unfold VKPresent.aquire_img
    rw [hc]
  · unfold VKPresent.present_frame
    rw [hg]

/-- C10 witness: on the #[derive(Default)] presenter value (max_frames never
set, empty vectors) both calls return Err(INCOMPLETE) with the state
untouched. -/
theorem presenter_incomplete_on_missing_sync_witness :
    VKPresent.default_value.img_rendered_cpu.get? VKPresent.default_value.frame = none ∧
    VKPresent.default_value.img_rendered_gpu.get? VKPresent.default_value.frame = none ∧
    (VKPresent.default_value.aquire_img
        { wait_rendered_fence := Except.ok (),
          acquire_next_image := Except.ok (0, false),
          wait_in_flight_fence := Except.ok (),
          reset_rendered_fence := Except.ok () } =
      (Except.error VkResult.INCOMPLETE, VKPresent.default_value) ∧
    VKPresent.default_value.present_frame
        { queue_present := Except.ok false, rebuild_result := Except.ok () } =
      (Except.error VkResult.INCOMPLETE, VKPresent.default_value, 0)) :=
  ⟨rfl, rfl,
   presenter_incomplete_on_missing_sync
     { wait_rendered_fence := Except.ok (),
       acquire_next_image := Except.ok (0, false),
       wait_in_flight_fence := Except.ok (),
       reset_rendered_fence := Except.ok () }
     { queue_present := Except.ok false, rebuild_result := Except.ok () }
     VKPresent.default_value rfl rfl⟩

/-! ## C6 -/

/-- C6: rebuild_swapchain builds the new swapchain first, with the old
handle passed as the old-swapchain hint, and the destroy of the old
swapchain happens strictly after the successful build (the event trace is
build then destroy); on a build failure — or a failure of the preceding
queue-idle wait — the error is returned, nothing is destroyed, and the
VKSwapchain state is left exactly as it was, so the old swapchain remains
valid and the failure is retryable. -/
theorem rebuild_swapchain_build_then_swap (env : RebuildEnv) (s : VKSwapchain) :
    (∀ new_swap : VKSwapchain, env.queue_wait_idle = Except.ok () →
      env.build_new (some s.swapchain) = Except.ok new_swap →
      s.rebuild_swapchain env =
        (Except.ok (), new_swap,
         [SwapEvent.built new_swap.swapchain (some s.swapchain),
          SwapEvent.destroyed s.swapchain])) ∧
    (∀ e : VkResult, env.queue_wait_idle = Except.ok () →
      env.build_new (some s.swapchain) = Except.error e →
      s.rebuild_swapchain env = (Except.error e, s, [])) ∧
    (∀ e : VkResult, env.queue_wait_idle = Except.error e →
      s.rebuild_swapchain env = (Except.error e, s, [])) := by
  refine ⟨?_, ?_, ?_⟩
  · intro new_swap hidle hbuild
    unfold VKSwapchain.rebuild_swapchain
    rw [hidle]
    simp only [hbuild]
  · intro e hidle hbuild
    unfold VKSwapchain.rebuild_swapchain
    rw [hidle]
    simp only [hbuild]
  · intro e hidle
    unfold VKSwapchain.rebuild_swapchain
    rw [hidle]

/-- A concrete swapchain state used by the C6 witness. -/
def swapchain_old : VKSwapchain :=
  { swapchain := 7, image_views := [11, 12, 13], images := [21, 22, 23],
    image_extent := { width := 640, height := 480 },
    capibilities := caps_min1_max1 }

/-- A concrete rebuilt swapchain used by the C6 witness. -/
def swapchain_new : VKSwapchain :=
  { swapchain := 8, image_views := [14, 15, 16], images := [24, 25, 26],
    image_extent := { width := 800, height := 600 },
    capibilities := caps_min1_max1 }

/-- C6 witness: the success and failure branches evaluated at concrete
environments — build-then-destroy trace on success, unchanged state and
empty trace on failure. -/
theorem rebuild_swapchain_build_then_swap_witness :
    (swapchain_old.rebuild_swapchain
        { queue_wait_idle := Except.ok (),
          build_new := fun _ => Except.ok swapchain_new } =
      (Except.ok (), swapchain_new,
       [SwapEvent.built 8 (some 7), SwapEvent.destroyed 7])) ∧
    (swapchain_old.rebuild_swapchain
        { queue_wait_idle := Except.ok (),
          build_new := fun _ => Except.error VkResult.ERROR_SURFACE_LOST_KHR } =
      (Except.error VkResult.ERROR_SURFACE_LOST_KHR, swapchain_old, [])) :=
  ⟨(rebuild_swapchain_build_then_swap
      { queue_wait_idle := Except.ok (),
        build_new := fun _ => Except.ok swapchain_new } swapchain_old).1
     swapchain_new rfl rfl,
   (rebuild_swapchain_build_then_swap
      { queue_wait_idle := Except.ok (),
        build_new := fun _ => Except.error VkResult.ERROR_SURFACE_LOST_KHR }
      swapchain_old).2.1
     VkResult.ERROR_SURFACE_LOST_KHR rfl rfl⟩

/-! ## C7 -/

/-- Characterization of present_frame on the path where the per-frame
semaphore exists and queue_present reports Ok: the frame counter advances
and the swap-invalid flag drives a single rebuild attempt. -/
lemma present_frame_ok_eq (env : PresentEnv) (s : VKPresent) (sem : Nat)
    (b : Bool) (hg : s.img_rendered_gpu.get? s.frame = some sem)
    (hq : env.queue_present = Except.ok b) :
    s.present_frame env =
      (if s.swap_invalid then
        match env.rebuild_result with
        | Except.ok _ =>
          (Except.ok (),
           { s with frame := (s.frame + 1) % s.max_frames, swap_invalid := false },
           1)
        | Except.error _ =>
          (Except.ok (), { s with frame := (s.frame + 1) % s.max_frames }, 1)
      else
        (Except.ok (), { s with frame := (s.frame + 1) % s.max_frames }, 0)) := by
  unfold VKPresent.present_frame
  rw [hg, hq]

/-- C7: every successful present_frame call advances the frame counter to
(frame + 1) mod max_frames; afterwards, if the swap-invalid flag was set the
call makes exactly one rebuild attempt and clears the flag if and only if
the rebuild succeeded, and if the flag was clear it makes no rebuild attempt
and the flag stays clear. -/
theorem present_frame_spec (env : PresentEnv) (s : VKPresent)
    (h : (s.present_frame env).1 = Except.ok ()) :
    ((s.present_frame env).2.1.frame = (s.frame + 1) % s.max_frames) ∧
    (s.swap_invalid = true →
      (s.present_frame env).2.2 = 1 ∧
      ((s.present_frame env).2.1.swap_invalid = false ↔
        env.rebuild_result.isOk = true)) ∧
    (s.swap_invalid = false →
      (s.present_frame env).2.2 = 0 ∧
      (s.present_frame env).2.1.swap_invalid = false) := by
  rcases hg : s.img_rendered_gpu.get? s.frame with _ | sem
  · unfold VKPresent.present_frame at h
    rw [hg] at h
    simp at h
  · rcases hq : env.queue_present with e | b
    · unfold VKPresent.present_frame at h
      rw [hg] at h
      simp only [hq] at h
      simp at h
    · rw [present_frame_ok_eq env s sem b hg hq]
      rcases hinv : s.swap_invalid with _ | _
      · simp
      · rcases hr : env.rebuild_result with e | u
        · simp [hr, Except.isOk, Except.toBool]
        · simp [hr, Except.isOk, Except.toBool]

/-- A presenter state with the swap-invalid flag set, for the C7 witness. -/
def present_invalid : VKPresent :=
  { present_ready with swap_invalid := true }

/-- An environment where queue_present succeeds but the rebuild fails, for
the C7 witness. -/
def present_env_rebuild_fails : PresentEnv :=
  { queue_present := Except.ok false,
    rebuild_result := Except.error VkResult.ERROR_OUT_OF_DATE_KHR }

/-- C7 witness: a successful present on a two-frame presenter with the
swap-invalid flag set and a failing rebuild — the frame advances to
(0 + 1) % 2, exactly one rebuild attempt is made, and the flag is cleared
iff the rebuild succeeded (here it failed, so the flag stays set for
retry). -/
theorem present_frame_spec_witness :
    (present_invalid.present_frame present_env_rebuild_fails).1 = Except.ok () ∧
    (present_invalid.present_frame present_env_rebuild_fails).2.1.frame = (0 + 1) % 2 ∧
    (present_invalid.present_frame present_env_rebuild_fails).2.2 = 1 ∧
    ((present_invalid.present_frame present_env_rebuild_fails).2.1.swap_invalid = false ↔
      (Except.error VkResult.ERROR_OUT_OF_DATE_KHR : Except VkResult Unit).isOk = true) := by
  have h := present_frame_spec present_env_rebuild_fails present_invalid rfl
  exact ⟨rfl, h.1, (h.2.1 rfl).1, (h.2.1 rfl).2⟩

/-! ## C1 -/

/-- C1 counterexample: when acquire_next_image fails with
ERROR_OUT_OF_DATE_KHR, aquire_img returns that very error to the caller
(the source propagates it with ?), and likewise present_frame returns an
out-of-date failure of queue_present to the caller — so the out-of-date
condition is NOT handled internally. -/
theorem presenter_out_of_date_counterexample :
    (present_ready.aquire_img
        { wait_rendered_fence := Except.ok (),
          acquire_next_image := Except.error VkResult.ERROR_OUT_OF_DATE_KHR,
          wait_in_flight_fence := Except.ok (),
          reset_rendered_fence := Except.ok () }).1 =
      Except.error VkResult.ERROR_OUT_OF_DATE_KHR ∧
    (present_ready.present_frame
        { queue_present := Except.error VkResult.ERROR_OUT_OF_DATE_KHR,
          rebuild_result := Except.ok () }).1 =
      Except.error VkResult.ERROR_OUT_OF_DATE_KHR := by
  exact ⟨rfl, rfl⟩

/-- C1 amended: only a suboptimal report on the success path of
acquire_next_image is handled internally — the acquire proceeds, returns Ok,
and sets the swap-invalid flag for the post-present rebuild; an
ERROR_OUT_OF_DATE_KHR (or any other) error result of the underlying acquire
or present call propagates to the caller as an error, and a suboptimal
report from queue_present is discarded: present_frame returns Ok and, when
the flag was clear, attempts no rebuild and leaves the flag clear. -/
theorem presenter_out_of_date_handling (env : AquireEnv) (envP : PresentEnv)
    (s : VKPresent) :
    (∀ (e : VkResult) (fc fg fa : Nat),
      s.img_rendered_cpu.get? s.frame = some fc →
      s.img_rendered_gpu.get? s.frame = some fg →
      s.img_aquired_gpu.get? s.frame = some fa →
      env.wait_rendered_fence = Except.ok () →
      env.acquire_next_image = Except.error e →
      (s.aquire_img env).1 = Except.error e) ∧
    (∀ (i : Nat) (fc fg fa : Nat),
      s.img_rendered_cpu.get? s.frame = some fc →
      s.img_rendered_gpu.get? s.frame = some fg →
      s.img_aquired_gpu.get? s.frame = some fa →
      env.wait_rendered_fence = Except.ok () →
      env.acquire_next_image = Except.ok (i, true) →
      env.wait_in_flight_fence = Except.ok () →
      env.reset_rendered_fence = Except.ok () →
      (s.aquire_img env).1 =
        Except.ok
          { frame_in_flight := s.frame, img_aquired_gpu := fa,
            img_aquired_index := i, done_rendering_cpu := fc,
            done_rendering_gpu := fg } ∧
      (s.aquire_img env).2.swap_invalid = true) ∧
    (∀ (b : Bool) (fg : Nat),
      s.img_rendered_gpu.get? s.frame = some fg →
      envP.queue_present = Except.ok b →
      (s.present_frame envP).1 = Except.ok () ∧
      (s.swap_invalid = false →
        (s.present_frame envP).2.2 = 0 ∧
        (s.present_frame envP).2.1.swap_invalid = false)) := by
  refine ⟨?_, ?_, ?_⟩
  · intro e fc fg fa hc hg ha hw hacq
    unfold VKPresent.aquire_img
    rw [hc, hg, ha, hw]
    simp only [hacq]
  · intro i fc fg fa hc hg ha hw hacq hfw hrst
    unfold VKPresent.aquire_img
    rw [hc, hg, ha, hw]
    simp only [hacq, if_true]
    rcases hif : s.img_in_flight.get? i with _ | f
    · simp [hif, hrst]
      split <;> exact ⟨rfl, rfl⟩
    · by_cases hf : f = 0
      · simp [hif, hf, hrst]
        split <;> exact ⟨rfl, rfl⟩
      · simp [hif, hf, hfw, hrst]
        split <;> exact ⟨rfl, rfl⟩
  · intro b fg hg hq
    rw [present_frame_ok_eq envP s fg b hg hq]
    constructor
    · split
      · split <;> rfl
      · rfl
    · intro hinv
      rw [hinv]
      simp

/-- Environment where acquire_next_image reports suboptimal on its success
path and every other call succeeds, for the C1 witness. -/
def aquire_env_suboptimal : AquireEnv :=
  { wait_rendered_fence := Except.ok (),
    acquire_next_image := Except.ok (0, true),
    wait_in_flight_fence := Except.ok (),
    reset_rendered_fence := Except.ok () }

/-- Environment where queue_present reports suboptimal on its success path,
for the C1 witness. -/
def present_env_suboptimal : PresentEnv :=
  { queue_present := Except.ok true, rebuild_result := Except.ok () }

/-- C1 witness: on a ready two-frame presenter, a suboptimal report from
acquire is absorbed (the call returns Ok and sets the swap-invalid flag),
and a suboptimal report from present is discarded (the call returns Ok, no
rebuild attempt, flag stays clear). -/
theorem presenter_out_of_date_handling_witness :
    present_ready.img_rendered_cpu.get? present_ready.frame = some 5 ∧
    (present_ready.aquire_img aquire_env_suboptimal).1 =
      Except.ok
        { frame_in_flight := 0, img_aquired_gpu := 1, img_aquired_index := 0,
          done_rendering_cpu := 5, done_rendering_gpu := 3 } ∧
    (present_ready.aquire_img aquire_env_suboptimal).2.swap_invalid = true ∧
    (present_ready.present_frame present_env_suboptimal).1 = Except.ok () ∧
    (present_ready.present_frame present_env_suboptimal).2.2 = 0 ∧
    (present_ready.present_frame present_env_suboptimal).2.1.swap_invalid = false := by
  have H := presenter_out_of_date_handling aquire_env_suboptimal
    present_env_suboptimal present_ready
  have h2 := H.2.1 0 5 3 1 rfl rfl rfl rfl rfl rfl rfl
  have h3 := H.2.2 true 3 rfl rfl
  exact ⟨rfl, h2.1, h2.2, h3.1, (h3.2 rfl).1, (h3.2 rfl).2⟩

/-! ## C3 -/

/-- A surface for which every queue of every adapter reports presentation
support and the capability query reports caps_min1_max1. -/
def surface_all_support : VKSurface :=
  { queue_supports_surface := fun _ _ => Except.ok true,
    swap_capabilities := fun _ => caps_min1_max1 }

/-- An adapter exposing all required extensions whose only queue family has
COMPUTE but not the required GRAPHICS capability. -/
def adapter_no_graphics : PhysicalDevice :=
  { extensions :=
      ["VK_KHR_swapchain", "VK_KHR_dynamic_rendering", "VK_KHR_synchronization2"],
    name := "Fake Presentation Only Adapter",
    device_type := PhysicalDeviceType.DISCRETE_GPU,
    queue_family_flags := [QueueFlags.COMPUTE],
    geometry_shader := false, shader_float64 := false, memory_heaps := [] }

/-- C3: device_compat (with the repository's registered requirement set and
a surface requirement present) accepts an adapter none of whose queue
families has the required GRAPHICS capability, because the queue loop OR-s
the surface-support result onto the capability check (the source writes
suported |= ...) instead of requiring both conjointly. Under the claim this
adapter must be rejected, since no queue family satisfies the required
flags at all. -/
theorem device_compat_or_queue_check :
    (base_requirments.device_compat adapter_no_graphics
        (some surface_all_support) 0).1 = true ∧
    adapter_no_graphics.queue_family_flags.all
      (fun flags =>
        !(queue_flags_contains flags base_requirments.required_queue_flags)) = true := by
  exact ⟨by decide, by decide⟩

/-! ## C4 -/

/-- An llvmpipe software adapter: the llvmpipe-exclusion predicate rejects
it, while its queue family has every capability and it exposes all required
extensions. -/
def adapter_llvmpipe : PhysicalDevice :=
  { extensions :=
      ["VK_KHR_swapchain", "VK_KHR_dynamic_rendering", "VK_KHR_synchronization2"],
    name := "llvmpipe (LLVM 15.0.7, 256 bits)",
    device_type := PhysicalDeviceType.CPU,
    queue_family_flags :=
      [QueueFlags.GRAPHICS + QueueFlags.COMPUTE + QueueFlags.TRANSFER],
    geometry_shader := true, shader_float64 := true, memory_heaps := [] }

/-- C4: the registered requirement predicates are combined with
Iterator::any — a disjunction. The llvmpipe-exclusion predicate rejects this
adapter, yet device_compat accepts it because the other registered predicate
passes; under the claim a single rejecting predicate must filter the adapter
out before scoring. -/
theorem device_compat_or_predicates :
    llvmpipe_predicate adapter_llvmpipe (some surface_all_support) = false ∧
    (base_requirments.device_compat adapter_llvmpipe
        (some surface_all_support) 0).1 = true := by
  exact ⟨by decide, by decide⟩

/-! ## C9 -/

instance (key : α → Nat) : IsTotal α (fun a b => key a ≤ key b) :=
  ⟨fun a b => Nat.le_total (key a) (key b)⟩

instance (key : α → Nat) : IsTrans α (fun a b => key a ≤ key b) :=
  ⟨fun _ _ _ h1 h2 => Nat.le_trans h1 h2⟩

/-- In a list sorted by key, the head key is at most the last key. -/
lemma key_head_le_getLast {α : Type} (key : α → Nat) :
    ∀ (y : α) (ys : List α), (y :: ys).Sorted (fun a b => key a ≤ key b) →
      ∀ w, (y :: ys).getLast? = some w → key y ≤ key w := by
  intro y ys
  induction ys generalizing y with
  | nil =>
    intro _ w hw
    simp at hw
    subst hw
    exact Nat.le_refl _
  | cons z zs ih =>
    intro hs w hw
    rw [List.getLast?_cons_cons] at hw
    have h1 : key y ≤ key z := (List.sorted_cons.mp hs).1 z (by simp)
    exact Nat.le_trans h1 (ih z (List.sorted_cons.mp hs).2 w hw)

/-- Inserting x into a key-sorted list: the last element stays, unless x has
a strictly larger key than the old last element, in which case x becomes the
last element. -/
lemma getLast?_orderedInsert {α : Type} (key : α → Nat) (x : α) :
    ∀ (L : List α), L.Sorted (fun a b => key a ≤ key b) →
      (L.orderedInsert (fun a b => key a ≤ key b) x).getLast? =
        some (match L.getLast? with
              | none => x
              | some y => if key x ≤ key y then y else x) := by
  intro L
  induction L with
  | nil => intro _; rfl
  | cons y ys ih =>
    intro hs
    have hys : ys.Sorted (fun a b => key a ≤ key b) := (List.sorted_cons.mp hs).2
    simp only [List.orderedInsert]
    by_cases h : key x ≤ key y
    · rw [if_pos h]
      cases ys with
      | nil => simp [h]
      | cons z zs =>
        rw [List.getLast?_cons_cons]
        rcases hw : (y :: z :: zs).getLast? with _ | w
        · simp at hw
        · have hxw : key x ≤ key w :=
            Nat.le_trans h (key_head_le_getLast key y (z :: zs) hs w hw)
          simp [hw, hxw]
    · rw [if_neg h]
      cases ys with
      | nil =>
        simp [List.orderedInsert, h]
      | cons z zs =>
        have hne : (List.orderedInsert (fun a b => key a ≤ key b) x (z :: zs)) ≠ [] := by
          simp only [List.orderedInsert]
          split <;> simp
        rcases hoi : List.orderedInsert (fun a b => key a ≤ key b) x (z :: zs) with _ | ⟨a, l⟩
        · exact absurd hoi hne
        · rw [List.getLast?_cons_cons, ← hoi, ih hys, List.getLast?_cons_cons]

/-- The last element of a stable sort by key is the element of maximal key
that comes latest in the original order. -/
lemma getLast?_insertionSort_eq_last_max_by {α : Type} (key : α → Nat)
    (l : List α) :
    (l.insertionSort (fun a b => key a ≤ key b)).getLast? = last_max_by key l := by
  induction l with
  | nil => rfl
  | cons x xs ih =>
    rw [List.insertionSort]
    rw [getLast?_orderedInsert key x _
      (List.sorted_insertionSort (fun a b => key a ≤ key b) xs)]
    rw [ih]
    cases h : last_max_by key xs <;> simp [last_max_by, h]

/-- The element chosen by last_max_by is in the list. -/
lemma last_max_by_mem {α : Type} (key : α → Nat) :
    ∀ (l : List α) (b : α), last_max_by key l = some b → b ∈ l := by
  intro l
  induction l with
  | nil => intro b h; simp [last_max_by] at h
  | cons x xs ih =>
    intro b h
    rw [last_max_by] at h
    rcases h2 : last_max_by key xs with _ | c
    · rw [h2] at h
      simp at h
      subst h
      exact List.mem_cons_self x xs
    · rw [h2] at h
      simp at h
      by_cases hxc : key x ≤ key c
      · rw [if_pos hxc] at h
        subst h
        exact List.mem_cons_of_mem x (ih c h2)
      · rw [if_neg hxc] at h
        subst h
        exact List.mem_cons_self x xs

/-- The element chosen by last_max_by has maximal key. -/
lemma last_max_by_le {α : Type} (key : α → Nat) :
    ∀ (l : List α) (b : α), last_max_by key l = some b →
      ∀ a ∈ l, key a ≤ key b := by
  intro l
  induction l with
  | nil => intro b h; simp [last_max_by] at h
  | cons x xs ih =>
    intro b h a ha
    rw [last_max_by] at h
    rcases h2 : last_max_by key xs with _ | c
    · rw [h2] at h
      simp at h
      subst h
      cases xs with
      | nil =>
        simp at ha
        subst ha
        exact Nat.le_refl _
      | cons z zs =>
        rw [last_max_by] at h2
        rcases h3 : last_max_by key zs with _ | w <;> rw [h3] at h2 <;> simp at h2
    · rw [h2] at h
      simp at h
      rcases List.mem_cons.mp ha with hax | haxs
      · subst hax
        by_cases hxc : key a ≤ key c
        · rw [if_pos hxc] at h
          subst h
          exact hxc
        · rw [if_neg hxc] at h
          subst h
          exact Nat.le_refl _
      · have hac : key a ≤ key c := ih c h2 a haxs
        by_cases hxc : key x ≤ key c
        · rw [if_pos hxc] at h
          subst h
          exact hac
        · rw [if_neg hxc] at h
          subst h
          exact Nat.le_trans hac (Nat.le_of_not_le hxc)

/-- C9: pick_device refines the specification chooser — among the adapters
passing device_compat (in enumeration order, with their captured queue
indices), it returns exactly the one of maximal score_function value,
preferring the latest on ties; the chosen adapter passes filtering and its
score bounds every eligible adapter's score; and the scoring gives a
discrete adapter without the mesh-shading extension a strictly higher score
than an integrated adapter with it when all remaining scoring inputs agree
(base+100 beats base+50+10). -/
theorem pick_device_spec (score_function : PhysicalDevice → Nat)
    (dev_requirments : VKDeviceRequirments) (vulkan_surface : VKSurface)
    (physical_devices : List PhysicalDevice) :
    (pick_device score_function dev_requirments vulkan_surface physical_devices =
      (last_max_by (fun scored => scored.1)
        ((eligible_devices dev_requirments vulkan_surface physical_devices).map
          (fun p => (score_function p.1, p)))).map (fun best => best.2)) ∧
    (∀ best : PhysicalDevice × Nat,
      pick_device score_function dev_requirments vulkan_surface physical_devices =
        some best →
      best ∈ eligible_devices dev_requirments vulkan_surface physical_devices ∧
      ∀ p ∈ eligible_devices dev_requirments vulkan_surface physical_devices,
        score_function p.1 ≤ score_function best.1) ∧
    (∀ d1 d2 : PhysicalDevice,
      d1.device_type = PhysicalDeviceType.DISCRETE_GPU →
      d2.device_type = PhysicalDeviceType.INTEGRATED_GPU →
      d1.extensions.contains mesh_shader_NAME = false →
      d2.extensions.contains mesh_shader_NAME = true →
      d1.queue_family_flags.any
          (fun flags => queue_flags_contains flags QueueFlags.COMPUTE) =
        d2.queue_family_flags.any
          (fun flags => queue_flags_contains flags QueueFlags.COMPUTE) →
      d1.geometry_shader = d2.geometry_shader →
      d1.shader_float64 = d2.shader_float64 →
      physical_device_memory_size d1 = physical_device_memory_size d2 →
      score_physical_device d2 < score_physical_device d1) := by
  have h1 :
      pick_device score_function dev_requirments vulkan_surface physical_devices =
        (last_max_by (fun scored => scored.1)
          ((eligible_devices dev_requirments vulkan_surface physical_devices).map
            (fun p => (score_function p.1, p)))).map (fun best => best.2) := by
    simp only [pick_device]
    exact congrArg _
      (getLast?_insertionSort_eq_last_max_by
        (α := Nat × PhysicalDevice × Nat) (fun scored => scored.1)
        ((eligible_devices dev_requirments vulkan_surface physical_devices).map
          (fun p => (score_function p.1, p))))
  refine ⟨h1, ?_, ?_⟩
  · intro best hbest
    rw [h1] at hbest
    rcases hmax : last_max_by (fun scored => scored.1)
        ((eligible_devices dev_requirments vulkan_surface physical_devices).map
          (fun p => (score_function p.1, p))) with _ | t
    · rw [hmax] at hbest
      simp at hbest
    · rw [hmax] at hbest
      simp at hbest
      have hmem := last_max_by_mem (α := Nat × PhysicalDevice × Nat) (fun scored => scored.1)
        ((eligible_devices dev_requirments vulkan_surface physical_devices).map
          (fun p => (score_function p.1, p))) t hmax
      rw [List.mem_map] at hmem
      obtain ⟨p, hp, hpt⟩ := hmem
      constructor
      · rw [← hbest, ← hpt]
        exact hp
      · intro q hq
        have hle := last_max_by_le (α := Nat × PhysicalDevice × Nat) (fun scored => scored.1)
          ((eligible_devices dev_requirments vulkan_surface physical_devices).map
            (fun p => (score_function p.1, p))) t hmax
          (score_function q.1, q)
          (List.mem_map_of_mem (fun p => (score_function p.1, p)) hq)
        rw [← hpt] at hle hbest
        simp at hle hbest
        rw [← hbest]
        exact hle
  · intro d1 d2 h1t h2t h1m h2m hcq hgeo hf64 hmem
    simp only [score_physical_device, h1t, h2t, h1m, h2m, hcq, hgeo, hf64, hmem]
    split_ifs <;> omega

/-- A discrete adapter without advanced feature extensions, eligible under
the repository requirement set. -/
def adapter_discrete : PhysicalDevice :=
  { extensions :=
      ["VK_KHR_swapchain", "VK_KHR_dynamic_rendering", "VK_KHR_synchronization2"],
    name := "Discrete GPU",
    device_type := PhysicalDeviceType.DISCRETE_GPU,
    queue_family_flags :=
      [QueueFlags.GRAPHICS + QueueFlags.COMPUTE + QueueFlags.TRANSFER],
    geometry_shader := false, shader_float64 := false, memory_heaps := [] }

/-- An integrated adapter that additionally exposes the mesh-shading
extension, eligible under the repository requirement set. -/
def adapter_integrated : PhysicalDevice :=
  { extensions :=
      ["VK_KHR_swapchain", "VK_KHR_dynamic_rendering", "VK_KHR_synchronization2",
       "VK_EXT_mesh_shader"],
    name := "Integrated GPU",
    device_type := PhysicalDeviceType.INTEGRATED_GPU,
    queue_family_flags :=
      [QueueFlags.GRAPHICS + QueueFlags.COMPUTE + QueueFlags.TRANSFER],
    geometry_shader := false, shader_float64 := false, memory_heaps := [] }

/-- A twin of the discrete adapter with a different name and the same score,
used to exhibit the last-wins tie-break. -/
def adapter_discrete_twin : PhysicalDevice :=
  { adapter_discrete with name := "Discrete GPU Twin" }

/-- C9 witness: the refinement equality applied to a concrete two-adapter
enumeration; the evaluation shows the discrete adapter (score 110) beating
the integrated one with the mesh extension (score 70), the tie between two
equal-scoring discrete adapters going to the later one in enumeration
order, and the scenario-D inequality instantiated. -/
theorem pick_device_spec_witness :
    (pick_device score_physical_device base_requirments surface_all_support
        [adapter_integrated, adapter_discrete] =
      (last_max_by (fun scored => scored.1)
        ((eligible_devices base_requirments surface_all_support
            [adapter_integrated, adapter_discrete]).map
          (fun p => (score_physical_device p.1, p)))).map (fun best => best.2)) ∧
    score_physical_device adapter_integrated < score_physical_device adapter_discrete ∧
    pick_device score_physical_device base_requirments surface_all_support
        [adapter_integrated, adapter_discrete] = some (adapter_discrete, 0) ∧
    score_physical_device adapter_discrete = 110 ∧
    score_physical_device adapter_integrated = 70 ∧
    score_physical_device adapter_discrete_twin = score_physical_device adapter_discrete ∧
    pick_device score_physical_device base_requirments surface_all_support
        [adapter_discrete, adapter_discrete_twin] = some (adapter_discrete_twin, 0) :=
  ⟨(pick_device_spec score_physical_device base_requirments surface_all_support
      [adapter_integrated, adapter_discrete]).1,
   (pick_device_spec score_physical_device base_requirments surface_all_support
      [adapter_integrated, adapter_discrete]).2.2 adapter_discrete adapter_integrated
     rfl rfl (by decide) (by decide) rfl rfl rfl rfl,
   by decide, by decide, by decide, by decide, by decide⟩

end VulkanEngine
